import Mathlib

/-!
Shallow embedding of the aipim provider-abstraction layer.

The repository has two crates sharing the same design: the `aipim` crate
(`src/src`, providers OpenAI and Anthropic, `Message.images : Vec<Image>`)
and the `core` crate (`src/core`, providers OpenAI and Google plus the same
Anthropic implementation, `Message.images : Option<Vec<Image>>`,
`Message.model : Option<String>`).  The embedding below follows the `core`
crate's normalized data model (the richer of the two) and embeds each
provider's request builder, response extraction and error rendering from
the cited source files.  HTTP transmission, environment-variable reads and
file-system reads are external effects: they appear as explicit parameters
(`fileBytes : Except String (List Nat)` for `std::fs::read`) or are outside
the embedded fragment.  Rust `u8` bytes are `Nat` (all arithmetic here stays
below 256 by construction of the base64 splitter), Rust panics on
out-of-bounds indexing (`content[0]` on an empty vector, `Option::expect`)
are modelled as `Option.none`.
-/

namespace Aipim

/-- `client::Image` (src/core/src/client.rs): base64 payload plus MIME type. -/
structure Image where
  data : String
  mime_type : String
deriving DecidableEq, Repr

/-- `client::Message` (src/core/src/client.rs): normalized request. -/
structure Message where
  text : String
  images : Option (List Image)
  model : Option String
deriving DecidableEq, Repr

/-- `client::Response` (src/core/src/client.rs): normalized result. -/
structure Response where
  text : String
deriving DecidableEq, Repr

/-! ### base64 (standard alphabet with padding, as `base64::engine::general_purpose::STANDARD`) -/

/-- The 64-character standard base64 alphabet. -/
def base64Alphabet : List Char :=
  ("ABCDEFGHIJKLMNOPQRSTUVWXYZabcdefghijklmnopqrstuvwxyz0123456789+/").toList

/-- Character for a 6-bit group. -/
def base64Char (n : Nat) : Char := base64Alphabet.getD n 'A'

/-- Standard base64 encoding of a byte list, three input bytes at a time,
with `=` padding, as performed by `general_purpose::STANDARD.encode`. -/
def base64EncodeList : List Nat → List Char
  | [] => []
  | [b0] =>
      [base64Char (b0 / 4), base64Char (b0 % 4 * 16), '=', '=']
  | [b0, b1] =>
      [base64Char (b0 / 4), base64Char (b0 % 4 * 16 + b1 / 16),
       base64Char (b1 % 16 * 4), '=']
  | b0 :: b1 :: b2 :: rest =>
      base64Char (b0 / 4) :: base64Char (b0 % 4 * 16 + b1 / 16) ::
      base64Char (b1 % 16 * 4 + b2 / 64) :: base64Char (b2 % 64) ::
      base64EncodeList rest

/-- `general_purpose::STANDARD.encode` on a byte vector, producing a string. -/
def base64Encode (bytes : List Nat) : String := String.mk (base64EncodeList bytes)

/-! ### Provider dispatch (`Client::new`, src/core/src/client.rs lines 50-70) -/

/-- Rust `str::starts_with` (std), modelled on the character list. -/
def rsStartsWith (s pre : String) : Bool := pre.toList.isPrefixOf s.toList

/-- The closed set of provider variants the dispatcher can return. -/
inductive ProviderKind where
  | openai
  | anthropic
  | google
deriving DecidableEq, Repr

/-- `Client::new` (src/core/src/client.rs): prefix dispatch on the model
identifier, checking `gpt`, then `claude`, then `gemini`; no match yields
`anyhow!("unsupported model: {model}")`.  The provider value additionally
stores the identifier via `with_model` and an environment-sourced API key;
only the chosen variant is embedded here. -/
def Client.new (model : String) : Except String ProviderKind :=
  if rsStartsWith model "gpt" then .ok .openai
  else if rsStartsWith model "claude" then .ok .anthropic
  else if rsStartsWith model "gemini" then .ok .google
  else .error ("unsupported model: " ++ model)

/-! ### Message builder (`MessageBuilder`, src/core/src/client.rs) -/

/-- `client::MessageBuilder` accumulation state (the wrapped `Client` is
dispatch state, not content, and is not part of the embedded record). -/
structure MessageBuilder where
  text : Option String
  images : List Image
  model : Option String
deriving DecidableEq, Repr

/-- `MessageBuilder::new`: empty accumulation state. -/
def MessageBuilder.new : MessageBuilder :=
  { text := none, images := [], model := none }

/-- `MessageBuilder::text`: sets the text. -/
def MessageBuilder.withText (b : MessageBuilder) (t : String) : MessageBuilder :=
  { b with text := some t }

/-- `MessageBuilder::image` (src/core/src/client.rs lines 195-202):
base64-encodes the raw bytes and pushes an `Image` carrying the
caller-supplied MIME type unchanged. -/
def MessageBuilder.image (b : MessageBuilder) (data : List Nat) (mime_type : String) :
    MessageBuilder :=
  { b with images := b.images ++ [{ data := base64Encode data, mime_type := mime_type }] }

/-- `MessageBuilder::image_file` (src/core/src/client.rs lines 224-234):
matches the path's extension to a MIME type, failing with
`unsupported image format` for anything else, then reads the file
(`std::fs::read`, modelled as the `fileBytes` parameter) and delegates to
`image`.  The extension (`Path::extension` of the argument) is supplied
already extracted, as `Option String`. -/
def MessageBuilder.image_file (b : MessageBuilder) (ext : Option String)
    (fileBytes : Except String (List Nat)) : Except String MessageBuilder := do
  let mime_type ←
    (match ext with
      | some "jpg" | some "jpeg" => Except.ok "image/jpeg"
      | some "png" => Except.ok "image/png"
      | some "gif" => Except.ok "image/gif"
      | some "webp" => Except.ok "image/webp"
      | _ => Except.error "unsupported image format")
  let data ← fileBytes
  return b.image data mime_type

/-- `MessageBuilder::model` (src/core/src/client.rs lines 249-252):
stores the override on the builder. -/
def MessageBuilder.withModel (b : MessageBuilder) (m : String) : MessageBuilder :=
  { b with model := some m }

/-- The `Message` constructed by `MessageBuilder::send`
(src/core/src/client.rs lines 260-268) before it is handed to the provider:
`text: self.text.expect("text is required")` (panic on `None`, modelled as
`none`), `images: Some(self.images)`, and the literal `model: None` as
written in the source. -/
def MessageBuilder.sendBuild (b : MessageBuilder) : Option Message :=
  match b.text with
  | some t => some { text := t, images := some b.images, model := none }
  | none => none

/-! ### OpenAI provider (src/core/src/provider/openai.rs) -/

/-- `openai::ComplexContent` with its payload structs `Text { typ, text }`
and `Image { typ, image_url: ImageUrl { url } }` flattened into the
constructor arguments. -/
inductive OAIComplexContent where
  | text (typ : String) (text : String)
  | image (typ : String) (url : String)
deriving DecidableEq, Repr

/-- `openai::Content`: either a plain string or a list of typed parts. -/
inductive OAIContent where
  | simple (s : String)
  | complex (parts : List OAIComplexContent)
deriving DecidableEq, Repr

/-- `openai::Content::as_text` (lines 219-224): only the `Simple` variant
yields text; a `Complex` part list yields `None` even when its first part
is a text part (the unit test `test_as_text` pins this down). -/
def OAIContent.as_text : OAIContent → Option String
  | .simple text => some text
  | _ => none

/-- `openai::Content::push` (lines 226-231): appends to a `Complex` list,
no-op on `Simple`. -/
def OAIContent.push (c : OAIContent) (x : OAIComplexContent) : OAIContent :=
  match c with
  | .complex v => .complex (v ++ [x])
  | c => c

/-- The image part built in `OpenAI::send_message` (lines 127-134):
`typ = "image_url"` and a data URI hard-coding `image/jpeg`; the image's
`mime_type` is not consulted. -/
def openaiImagePart (i : Image) : OAIComplexContent :=
  .image "image_url" ("data:image/jpeg;base64," ++ i.data)

/-- Request content built by `OpenAI::send_message` (lines 122-134): starts
from `Complex([Text])` and pushes one image part per image, in order. -/
def openaiBuildContent (text : String) (images : List Image) : OAIContent :=
  images.foldl (fun c i => c.push (openaiImagePart i)) (.complex [.text "text" text])

/-- `openai::Error` (lines 283-291): the vendor error shape. -/
structure OAIError where
  code : Option String
  message : String
  param : String
  typ : String
deriving DecidableEq, Repr

/-- The error string rendered by `OpenAI::send_message` (lines 178-190):
`"{code}: "` when a code is present, then `"{message} ({param})"`.  The
shape's `typ` field is not rendered. -/
def openaiRenderError (e : OAIError) : String :=
  (match e.code with
    | some code => code ++ ": "
    | none => "") ++ e.message ++ " (" ++ e.param ++ ")"

/-- `openai::ChatMessage` as it appears in a response choice. -/
structure OAIChatMessage where
  role : String
  content : OAIContent
deriving DecidableEq, Repr

/-- `openai::Choice`, keeping the field the extraction path reads
(`message`); `index`, `logprobs` and `finish_reason` are response metadata
never consulted by `send_message`. -/
structure OAIChoice where
  message : OAIChatMessage
deriving DecidableEq, Repr

/-- `openai::Response`: untagged union of the success shape (of which only
`choices` is consulted; `id`, `model`, `usage`, ... are metadata) and the
error shape. -/
inductive OAIResponse where
  | message (choices : List OAIChoice)
  | error (error : OAIError)
deriving DecidableEq, Repr

/-- The post-parse half of `OpenAI::send_message` (lines 169-191): on the
success shape take `choices[0].message.content` (`none` models the Rust
index panic on an empty vector), succeed with its `as_text` or fail with
the unsupported-content error; on the error shape fail with the rendered
vendor error. -/
def openaiHandle : OAIResponse → Option (Except String Response)
  | .message choices =>
      choices.head?.map fun choice =>
        match choice.message.content.as_text with
        | some text => .ok { text := text }
        | none => .error "unsupported response content type"
  | .error e => some (.error (openaiRenderError e))

/-! ### Anthropic provider (src/src/provider/anthropic.rs) -/

/-- `anthropic::Content` with its payload structs `Text { typ, text }` and
`Image { typ, source: ImageData { typ, media_type, data } }` flattened. -/
inductive AContent where
  | text (typ : String) (text : String)
  | image (typ : String) (source_typ : String) (media_type : String) (data : String)
deriving DecidableEq, Repr

/-- `anthropic::Content::as_text` (lines 238-244): a text block yields its
text; an image block yields the literal placeholder string `"[image]"`,
not a failure. -/
def AContent.as_text : AContent → String
  | .text _ t => t
  | .image _ _ _ _ => "[image]"

/-- The image block built in `Anthropic::send_message` (lines 148-157):
`typ = "image"`, `source.typ = "base64"`, carrying the image's true
`media_type` and payload. -/
def anthropicImagePart (i : Image) : AContent :=
  .image "image" "base64" i.mime_type i.data

/-- Request content built by `Anthropic::send_message` (lines 143-157):
a text block first, then one image block per image, pushed in order. -/
def anthropicBuildContent (text : String) (images : List Image) : List AContent :=
  images.foldl (fun c i => c ++ [anthropicImagePart i]) [AContent.text "text" text]

/-- `anthropic::ErrorDetails`: the inner vendor error shape. -/
structure AErrorDetails where
  typ : String
  message : String
deriving DecidableEq, Repr

/-- `anthropic::Response`: untagged union of the success message shape (of
which only `content` is consulted by `Response::text`; `id`, `model`,
`usage`, ... are metadata) and the error shape `Error { typ, error }`. -/
inductive AResponse where
  | message (content : List AContent)
  | error (typ : String) (error : AErrorDetails)
deriving DecidableEq, Repr

/-- The post-parse half of `Anthropic::send_message` (lines 195-199): an
error response fails with `error.error.message` alone (the inner `type`
field is dropped); a message response succeeds with
`content[0].as_text()` (`none` models the index panic on empty content) —
including the `"[image]"` placeholder when the first block is an image. -/
def anthropicHandle : AResponse → Option (Except String Response)
  | .error _ details => some (.error details.message)
  | .message content =>
      content.head?.map fun c => .ok { text := c.as_text }

/-! ### Google provider (src/core/src/provider/google.rs) -/

/-- `google::Part` with `TextPart { text }` and
`InlineData { inline_data: Blob { mime_type, data } }` flattened. -/
inductive GPart where
  | text (text : String)
  | inlineData (mime_type : String) (data : String)
deriving DecidableEq, Repr

/-- `google::Part::as_text` (lines 225-230). -/
def GPart.as_text : GPart → Option String
  | .text part => some part
  | _ => none

/-- `google::Content`: a part list plus a role. -/
structure GContent where
  parts : List GPart
  role : String
deriving DecidableEq, Repr

/-- `google::GenerationConfig` (lines 265-272); the two `f32` fields are
embedded as rationals. -/
structure GenerationConfig where
  temperature : ℚ
  top_p : ℚ
  top_k : Nat
  max_output_tokens : Nat
  response_mime_type : Option String
deriving DecidableEq, Repr

/-- `google::SystemInstruction` (lines 204-206). -/
structure SystemInstruction where
  parts : List GPart
deriving DecidableEq, Repr

/-- `google::SafetySetting` (lines 257-260). -/
structure SafetySetting where
  category : String
  threshold : String
deriving DecidableEq, Repr

/-- `google::Request` (lines 193-199). -/
structure GRequest where
  contents : List GContent
  safety_settings : List SafetySetting
  generation_config : GenerationConfig
  system_instruction : Option SystemInstruction
deriving DecidableEq, Repr

/-- The image part built in `google::build_request` (lines 145-153). -/
def googleImagePart (i : Image) : GPart :=
  .inlineData i.mime_type i.data

/-- `google::build_request` (lines 137-185): content starts as a single
text part with role `user`; each image, in order, is inserted at index 0
of the part list; `max_output_tokens` is 32768 for models whose identifier
starts with `gemini-2` and 8192 otherwise; temperature/top-p/top-k are the
literals 0.9/1.0/1; `response_mime_type` is always `Some("text/plain")`;
`system_instruction` is attached exactly for `gemini-2`-prefixed models. -/
def build_request (message : Message) (model : String) : GRequest :=
  let content : GContent := { parts := [GPart.text message.text], role := "user" }
  let content : GContent :=
    match message.images with
    | some images =>
        { content with
            parts := images.foldl (fun parts i => googleImagePart i :: parts) content.parts }
    | none => content
  let max_tokens : Nat := if rsStartsWith model "gemini-2" then 32768 else 8192
  { contents := [content]
    safety_settings := []
    generation_config :=
      { temperature := 9 / 10
        top_p := 1
        top_k := 1
        max_output_tokens := max_tokens
        response_mime_type := some "text/plain" }
    system_instruction :=
      if rsStartsWith model "gemini-2" then
        some { parts := [GPart.text "You are a helpful AI assistant."] }
      else
        none }

/-- `google::ErrorResponse` (lines 331-335). -/
structure GErrorResponse where
  code : Nat
  message : String
  status : String
deriving DecidableEq, Repr

/-- The error string rendered by `Google::send_message` (lines 127-132):
`"{status}: {message} ({code})"`. -/
def googleRenderError (e : GErrorResponse) : String :=
  e.status ++ ": " ++ e.message ++ " (" ++ toString e.code ++ ")"

/-- `google::Candidate`, keeping the field the extraction path reads
(`content`); `finish_reason`, `index`, `safety_ratings`, `avg_logprobs`
are response metadata never consulted by `send_message`. -/
structure GCandidate where
  content : GContent
deriving DecidableEq, Repr

/-- `google::Response`: untagged union of the success shape (of which only
`candidates` is consulted) and the error shape. -/
inductive GResponse where
  | success (candidates : List GCandidate)
  | error (error : GErrorResponse)
deriving DecidableEq, Repr

/-- The post-parse half of `Google::send_message` (lines 118-133): on
success take `candidates[0].content.parts[0]` (each indexing panic
modelled as `none`), succeed with its `as_text` or fail with the
unsupported-content error; on the error shape fail with the rendered
vendor error. -/
def googleHandle : GResponse → Option (Except String Response)
  | .success candidates =>
      candidates.head?.bind fun candidate =>
        candidate.content.parts.head?.map fun part =>
          match part.as_text with
          | some text => .ok { text := text }
          | none => .error "unsupported response content type"
  | .error e => some (.error (googleRenderError e))

/-! ### Helper accessors used by the theorems -/

/-- Part list of an OpenAI content value (`Complex` parts; `Simple` has none). -/
def OAIContent.partsOf : OAIContent → List OAIComplexContent
  | .complex parts => parts
  | .simple _ => []

/-- The url of an OpenAI image part, if any. -/
def OAIComplexContent.imageUrl : OAIComplexContent → Option String
  | .image _ url => some url
  | _ => none

/-- Whether an OpenAI part is an image part. -/
def OAIComplexContent.isImage : OAIComplexContent → Bool
  | .image _ _ => true
  | _ => false

/-- Whether an OpenAI part is a text part. -/
def OAIComplexContent.isText : OAIComplexContent → Bool
  | .text _ _ => true
  | _ => false

/-- Whether an Anthropic block is an image block. -/
def AContent.isImage : AContent → Bool
  | .image _ _ _ _ => true
  | _ => false

/-- Whether an Anthropic block is a text block. -/
def AContent.isText : AContent → Bool
  | .text _ _ => true
  | _ => false

/-- Whether a Google part is an inline-data (image) part. -/
def GPart.isImage : GPart → Bool
  | .inlineData _ _ => true
  | _ => false

/-- Whether a Google part is a text part. -/
def GPart.isText : GPart → Bool
  | .text _ => true
  | _ => false

/-- Part list of the single content object of a built Google request. -/
def GRequest.firstParts (r : GRequest) : List GPart :=
  (r.contents.headD { parts := [], role := "" }).parts

/-! ### Structure lemmas for the three request builders -/

/-- Folding `Content::push` over images extends a `Complex` part list in order. -/
theorem openai_foldl_push (l : List Image) (acc : List OAIComplexContent) :
    l.foldl (fun c i => OAIContent.push c (openaiImagePart i)) (OAIContent.complex acc) =
      OAIContent.complex (acc ++ l.map openaiImagePart) := by
  induction l generalizing acc with
  | nil => simp
  | cons x xs ih =>
      rw [List.foldl_cons]
      have hpush : OAIContent.push (OAIContent.complex acc) (openaiImagePart x) =
          OAIContent.complex (acc ++ [openaiImagePart x]) := rfl
      rw [hpush, ih]
      simp

/-- The OpenAI request content is the text part followed by the image parts in order. -/
theorem openaiBuildContent_eq (t : String) (imgs : List Image) :
    openaiBuildContent t imgs =
      OAIContent.complex (OAIComplexContent.text "text" t :: imgs.map openaiImagePart) := by
  simpa [openaiBuildContent] using openai_foldl_push imgs [.text "text" t]

/-- Folding list append over images extends the block list in order. -/
theorem anthropic_foldl_append (l : List Image) (acc : List AContent) :
    l.foldl (fun c i => c ++ [anthropicImagePart i]) acc = acc ++ l.map anthropicImagePart := by
  induction l generalizing acc with
  | nil => simp
  | cons x xs ih => simp [ih]

/-- The Anthropic request content is the text block followed by the image blocks in order. -/
theorem anthropicBuildContent_eq (t : String) (imgs : List Image) :
    anthropicBuildContent t imgs =
      AContent.text "text" t :: imgs.map anthropicImagePart := by
  simpa [anthropicBuildContent] using anthropic_foldl_append imgs [.text "text" t]

/-- Folding insert-at-front over images reverses their order in front of the accumulator. -/
theorem google_foldl_cons (l : List Image) (acc : List GPart) :
    l.foldl (fun parts i => googleImagePart i :: parts) acc =
      (l.map googleImagePart).reverse ++ acc := by
  induction l generalizing acc with
  | nil => simp
  | cons x xs ih => simp [ih]

/-- The single content object of a built Google request holds the image
parts in reverse order of addition, then the text part. -/
theorem build_request_firstParts (t : String) (imgs : List Image) (mo : Option String)
    (model : String) :
    (build_request { text := t, images := some imgs, model := mo } model).firstParts =
      (imgs.map googleImagePart).reverse ++ [GPart.text t] := by
  simp [build_request, GRequest.firstParts, google_foldl_cons]

/-! ### Claim theorems -/

/-- Claim C1: `Client::new` returns the provider variant matching the
model identifier's vendor prefix — `gpt` maps to the OpenAI provider,
`claude` to Anthropic, `gemini` to Google, checked in that fixed order
with first match winning — and an identifier matching no prefix fails
with an unsupported-model error whose message carries the identifier. -/
theorem c1_client_new_dispatch (m : String) :
    (rsStartsWith m "gpt" = true → Client.new m = .ok .openai) ∧
    (rsStartsWith m "gpt" = false → rsStartsWith m "claude" = true →
      Client.new m = .ok .anthropic) ∧
    (rsStartsWith m "gpt" = false → rsStartsWith m "claude" = false →
      rsStartsWith m "gemini" = true → Client.new m = .ok .google) ∧
    (rsStartsWith m "gpt" = false → rsStartsWith m "claude" = false →
      rsStartsWith m "gemini" = false →
      Client.new m = .error ("unsupported model: " ++ m)) := by
  refine ⟨fun h1 => ?_, fun h1 h2 => ?_, fun h1 h2 h3 => ?_, fun h1 h2 h3 => ?_⟩ <;>
    simp [Client.new, h1, *]

/-- Concrete instance of `c1_client_new_dispatch` for each of the four outcomes. -/
theorem c1_client_new_dispatch_witness :
    Client.new "gpt-4o" = .ok .openai ∧
    Client.new "claude-3-haiku-20240307" = .ok .anthropic ∧
    Client.new "gemini-2.0-flash" = .ok .google ∧
    Client.new "llama-3-70b" = .error ("unsupported model: " ++ "llama-3-70b") :=
  ⟨(c1_client_new_dispatch "gpt-4o").1 (by decide),
   (c1_client_new_dispatch "claude-3-haiku-20240307").2.1 (by decide) (by decide),
   (c1_client_new_dispatch "gemini-2.0-flash").2.2.1 (by decide) (by decide) (by decide),
   (c1_client_new_dispatch "llama-3-70b").2.2.2 (by decide) (by decide) (by decide)⟩

/-- Claim C2 counterexample: a parsed Anthropic success payload whose first
content block is an image does not fail — `Anthropic::send_message`
returns `Ok` with the placeholder text `"[image]"`
(`Content::as_text`, src/src/provider/anthropic.rs lines 238-244). -/
theorem c2_counterexample :
    anthropicHandle (AResponse.message
        [AContent.image "image" "base64" "image/png" "iVBORw0KGgo="]) =
      some (Except.ok { text := "[image]" }) ∧
    ¬ ∃ e : String,
      anthropicHandle (AResponse.message
          [AContent.image "image" "base64" "image/png" "iVBORw0KGgo="]) =
        some (Except.error e) := by
  refine ⟨rfl, ?_⟩
  rintro ⟨e, he⟩
  exact Except.noConfusion (Option.some.inj he)

/-- Claim C2 amended: the Google-style provider returns the first
candidate's first part's text when it is a text part and fails with the
unsupported-response-content error when it is not; the OpenAI-style
provider returns the text only for the plain-string content form and fails
with that error for any part-list content, even one whose first part is a
text part; the Anthropic-style provider never fails on content shape — a
text first block yields its text and a non-text first block yields the
placeholder Response `"[image]"`. -/
theorem c2_amended (t role mt d typ : String) (grest : List GPart)
    (arest : List AContent) (prest : List OAIComplexContent) :
    googleHandle (GResponse.success
        [{ content := { parts := GPart.text t :: grest, role := role } }]) =
      some (.ok { text := t }) ∧
    googleHandle (GResponse.success
        [{ content := { parts := GPart.inlineData mt d :: grest, role := role } }]) =
      some (.error "unsupported response content type") ∧
    openaiHandle (OAIResponse.message
        [{ message := { role := role, content := OAIContent.simple t } }]) =
      some (.ok { text := t }) ∧
    openaiHandle (OAIResponse.message
        [{ message := { role := role,
                        content := OAIContent.complex
                          (OAIComplexContent.text typ t :: prest) } }]) =
      some (.error "unsupported response content type") ∧
    anthropicHandle (AResponse.message (AContent.text typ t :: arest)) =
      some (.ok { text := t }) ∧
    anthropicHandle (AResponse.message (AContent.image typ "base64" mt d :: arest)) =
      some (.ok { text := "[image]" }) :=
  ⟨rfl, rfl, rfl, rfl, rfl, rfl⟩

/-- Claim C3 counterexample: the Anthropic error path renders only the
vendor `message`, dropping the vendor `type` field — the normalized error
for `{type: "invalid_request_error", message: "Overloaded"}` is exactly
`"Overloaded"`, which does not contain `"invalid_request_error"`. -/
theorem c3_counterexample :
    anthropicHandle (AResponse.error "error"
        { typ := "invalid_request_error", message := "Overloaded" }) =
      some (Except.error "Overloaded") ∧
    ¬ List.IsInfix "invalid_request_error".toList "Overloaded".toList :=
  ⟨rfl, by decide⟩

/-- Claim C3 amended: the OpenAI-style error message retains code (when
the vendor supplied one), message and param; the Google-style error
message retains status, message and code; the Anthropic-style error
message retains only the vendor message and drops the vendor `type`. -/
theorem c3_amended (c msg param typ status ityp atyp : String) (n : Nat) :
    openaiRenderError { code := some c, message := msg, param := param, typ := typ } =
      c ++ ": " ++ msg ++ " (" ++ param ++ ")" ∧
    openaiRenderError { code := none, message := msg, param := param, typ := typ } =
      msg ++ " (" ++ param ++ ")" ∧
    googleRenderError { code := n, message := msg, status := status } =
      status ++ ": " ++ msg ++ " (" ++ toString n ++ ")" ∧
    anthropicHandle (AResponse.error atyp { typ := ityp, message := msg }) =
      some (Except.error msg) :=
  ⟨rfl, rfl, rfl, rfl⟩

/-- Claim C4: for a Message with N images each provider's request builder
produces exactly N image-bearing content units plus exactly 1 text unit —
the text unit before all image units for the OpenAI-style and
Anthropic-style providers, and all image units before the text unit for
the Google-style provider. -/
theorem c4_request_shape (t : String) (imgs : List Image) (mo : Option String)
    (model : String) :
    openaiBuildContent t imgs =
      OAIContent.complex (OAIComplexContent.text "text" t :: imgs.map openaiImagePart) ∧
    (openaiBuildContent t imgs).partsOf.countP OAIComplexContent.isImage = imgs.length ∧
    (openaiBuildContent t imgs).partsOf.countP OAIComplexContent.isText = 1 ∧
    anthropicBuildContent t imgs =
      AContent.text "text" t :: imgs.map anthropicImagePart ∧
    (anthropicBuildContent t imgs).countP AContent.isImage = imgs.length ∧
    (anthropicBuildContent t imgs).countP AContent.isText = 1 ∧
    (build_request { text := t, images := some imgs, model := mo } model).firstParts =
      (imgs.map googleImagePart).reverse ++ [GPart.text t] ∧
    (build_request { text := t, images := some imgs, model := mo }
        model).firstParts.countP GPart.isImage = imgs.length ∧
    (build_request { text := t, images := some imgs, model := mo }
        model).firstParts.countP GPart.isText = 1 := by
  refine ⟨openaiBuildContent_eq t imgs, ?_, ?_, anthropicBuildContent_eq t imgs, ?_, ?_,
    build_request_firstParts t imgs mo model, ?_, ?_⟩ <;>
    simp only [openaiBuildContent_eq, anthropicBuildContent_eq, build_request_firstParts] <;>
    simp [OAIContent.partsOf, List.countP_cons, List.countP_map, List.countP_append,
      List.countP_reverse, Function.comp, OAIComplexContent.isImage,
      OAIComplexContent.isText, openaiImagePart, anthropicImagePart, googleImagePart,
      AContent.isImage, AContent.isText, GPart.isImage, GPart.isText,
      List.countP_eq_length, List.countP_eq_zero]

/-- Claim C5: every image sent through the OpenAI-style provider becomes a
data URI `data:image/jpeg;base64,<data>` whose payload is the stored
base64 data, with the image's declared `mime_type` discarded. -/
theorem c5_openai_jpeg_uri (t d m₁ m₂ : String) (imgs : List Image) :
    (openaiBuildContent t imgs).partsOf.filterMap OAIComplexContent.imageUrl =
      imgs.map (fun i => "data:image/jpeg;base64," ++ i.data) ∧
    openaiImagePart { data := d, mime_type := m₁ } =
      openaiImagePart { data := d, mime_type := m₂ } ∧
    openaiImagePart { data := d, mime_type := m₁ } =
      OAIComplexContent.image "image_url" ("data:image/jpeg;base64," ++ d) := by
  refine ⟨?_, rfl, rfl⟩
  rw [openaiBuildContent_eq]
  induction imgs with
  | nil => rfl
  | cons x xs ih =>
      simpa [OAIContent.partsOf, List.filterMap_cons, OAIComplexContent.imageUrl,
        openaiImagePart] using ih

/-- Claim C7 evaluated at the failing input: a builder that received the
model override `"gpt-4o"` finalizes, through `MessageBuilder::send`, a
Message whose `model` field is `none`, because the source hard-codes
`model: None` (src/core/src/client.rs line 264). -/
theorem c7_model_override_discarded :
    MessageBuilder.sendBuild ((MessageBuilder.new.withText "hi").withModel "gpt-4o") =
      some { text := "hi", images := some [], model := none } := rfl

/-- Claim C8 counterexample: the built Google request asks for a specific
response MIME type (`text/plain`) for every model, including
`gemini-1.5-pro`, which is not in the `gemini-2` family — not exactly for
the newer family as claimed. -/
theorem c8_counterexample :
    (build_request { text := "hi", images := none, model := none }
        "gemini-1.5-pro").generation_config.response_mime_type = some "text/plain" ∧
    rsStartsWith "gemini-1.5-pro" "gemini-2" = false :=
  ⟨rfl, by decide⟩

/-- Claim C8 amended: temperature, top-p and top-k of the built Google
request are the fixed constants 0.9, 1.0 and 1; the max output token
ceiling is 32768 exactly when the model identifier starts with `gemini-2`
and 8192 otherwise; the system-instruction block is attached exactly for
`gemini-2`-prefixed models; and the `text/plain` response MIME type is
requested unconditionally, for every model. -/
theorem c8_amended (msg : Message) (model : String) :
    (build_request msg model).generation_config.temperature = 9 / 10 ∧
    (build_request msg model).generation_config.top_p = 1 ∧
    (build_request msg model).generation_config.top_k = 1 ∧
    (build_request msg model).generation_config.max_output_tokens =
      (if rsStartsWith model "gemini-2" then 32768 else 8192) ∧
    (build_request msg model).generation_config.response_mime_type = some "text/plain" ∧
    (build_request msg model).system_instruction.isSome = rsStartsWith model "gemini-2" ∧
    (rsStartsWith model "gemini-2" = true →
      (build_request msg model).system_instruction =
        some { parts := [GPart.text "You are a helpful AI assistant."] }) := by
  cases h : rsStartsWith model "gemini-2" <;> simp [build_request, h]

/-- Concrete instance of `c8_amended` at a `gemini-2` model, discharging
the system-instruction implication. -/
theorem c8_amended_witness :
    (build_request { text := "hi", images := none, model := none }
        "gemini-2.0-flash").system_instruction =
      some { parts := [GPart.text "You are a helpful AI assistant."] } :=
  (c8_amended { text := "hi", images := none, model := none }
    "gemini-2.0-flash").2.2.2.2.2.2 (by decide)

/-- Claim C10: the Google request builder inserts each image at the front
of the part list, so the images appear in reverse order of addition — the
last-added image is the first part, the first-added image is the last
image part, immediately before the text part; instantiated at two images,
the parts are the second image, then the first, then the text. -/
theorem c10_google_image_order (t : String) (imgs : List Image) (mo : Option String)
    (model : String) (i₁ i₂ : Image) :
    (build_request { text := t, images := some imgs, model := mo } model).firstParts =
      (imgs.map googleImagePart).reverse ++ [GPart.text t] ∧
    (build_request { text := t, images := some [i₁, i₂], model := mo } model).firstParts =
      [googleImagePart i₂, googleImagePart i₁, GPart.text t] := by
  refine ⟨build_request_firstParts t imgs mo model, ?_⟩
  rw [build_request_firstParts]
  rfl

/-- Claim C6 counterexample: `MessageBuilder::image` stores the
caller-supplied MIME type unchecked — adding an image with MIME type
`image/bmp` produces an `Image` whose `mime_type` is `image/bmp`, outside
the four supported values, so the invariant is not enforced at this entry
point. -/
theorem c6_counterexample :
    (MessageBuilder.new.image [] "image/bmp").images.map Image.mime_type = ["image/bmp"] ∧
    "image/bmp" ∉ (["image/jpeg", "image/png", "image/gif", "image/webp"] : List String) :=
  ⟨rfl, by decide⟩

/-- Claim C6 amended: only `image_file` enforces the four-value MIME
invariant — any image it adds carries one of `image/jpeg`, `image/png`,
`image/gif`, `image/webp` — while `image` stores the caller-supplied MIME
type unchecked (the caller is trusted). -/
theorem c6_amended (b b' : MessageBuilder) (ext : Option String)
    (fileBytes : Except String (List Nat)) (d : List Nat) (mt : String)
    (h : b.image_file ext fileBytes = .ok b') :
    b'.images.getLast?.map Image.mime_type ∈
      (["image/jpeg", "image/png", "image/gif", "image/webp"].map some) ∧
    (b.image d mt).images = b.images ++ [{ data := base64Encode d, mime_type := mt }] := by
  refine ⟨?_, rfl⟩
  unfold MessageBuilder.image_file at h
  rcases fileBytes with e | data
  · split at h <;> simp [Bind.bind, Except.bind] at h
  · split at h <;>
      first
        | (simp only [Bind.bind, Except.bind, pure, Except.pure, Except.ok.injEq] at h
           subst h
           simp [MessageBuilder.image, List.getLast?_concat])
        | simp [Bind.bind, Except.bind] at h

/-- Concrete instance of `c6_amended`: an image added from a `.png` file. -/
theorem c6_amended_witness :
    (MessageBuilder.new.image [] "image/png").images.getLast?.map Image.mime_type ∈
      (["image/jpeg", "image/png", "image/gif", "image/webp"].map some) ∧
    (MessageBuilder.new.image [] "image/png").images =
      MessageBuilder.new.images ++ [{ data := base64Encode [], mime_type := "image/png" }] :=
  c6_amended MessageBuilder.new (MessageBuilder.new.image [] "image/png")
    (some "png") (.ok []) [] "image/png" rfl

/-- Claim C9: `image_file` maps extensions `jpg` and `jpeg` to
`image/jpeg`, `png` to `image/png`, `gif` to `image/gif`, `webp` to
`image/webp`, and for every other extension (or none) fails with the
unsupported-image-format error regardless of the outcome of the file
read — the failure precedes any use of the file contents. -/
theorem c9_image_file_extensions (b : MessageBuilder) (d : List Nat)
    (ext : Option String) (fileBytes : Except String (List Nat))
    (h : ext ∉ ([some "jpg", some "jpeg", some "png", some "gif", some "webp"] :
      List (Option String))) :
    b.image_file (some "jpg") (.ok d) = .ok (b.image d "image/jpeg") ∧
    b.image_file (some "jpeg") (.ok d) = .ok (b.image d "image/jpeg") ∧
    b.image_file (some "png") (.ok d) = .ok (b.image d "image/png") ∧
    b.image_file (some "gif") (.ok d) = .ok (b.image d "image/gif") ∧
    b.image_file (some "webp") (.ok d) = .ok (b.image d "image/webp") ∧
    b.image_file ext fileBytes = .error "unsupported image format" := by
  refine ⟨rfl, rfl, rfl, rfl, rfl, ?_⟩
  unfold MessageBuilder.image_file
  split <;> simp_all [Bind.bind, Except.bind]

/-- Concrete instance of `c9_image_file_extensions`: a `.bmp` path fails
even though the file read succeeds, and a `.png` path succeeds. -/
theorem c9_image_file_extensions_witness :
    MessageBuilder.new.image_file (some "bmp") (.ok []) =
      .error "unsupported image format" ∧
    MessageBuilder.new.image_file (some "png") (.ok []) =
      .ok (MessageBuilder.new.image [] "image/png") := by
  have h := c9_image_file_extensions MessageBuilder.new [] (some "bmp") (.ok [])
    (by decide)
  exact ⟨h.2.2.2.2.2, h.2.2.1⟩

end Aipim
